import Mathlib

/-!
Verification of the IT Student Mental Health API backend (`main.py`,
`schemas.py`).  The service is embedded shallowly: handlers become pure
functions, the external document store becomes an explicit `Except`-valued
parameter (the store may be absent or throw), and Python exceptions become
explicit error values.
-/

namespace MentalHealthApi

/-- Python list indexing semantics for `l[i]` on a list of integers:
a nonnegative index within bounds returns the element, a negative index
`i` with `-len ≤ i` returns the element at `len + i` (counting from the
end), and anything else raises `IndexError`, modelled as `none`. -/
def pyIndex (l : List Int) (i : Int) : Option Int :=
  if 0 ≤ i then l.get? i.toNat
  else if 0 ≤ (l.length : Int) + i then l.get? ((l.length : Int) + i).toNat
  else none

/-- `PHQ9_WEIGHTS = [0,1,2,3]` from `main.py`. -/
def PHQ9_WEIGHTS : List Int := [0, 1, 2, 3]

/-- `GAD7_WEIGHTS = [0,1,2,3]` from `main.py`. -/
def GAD7_WEIGHTS : List Int := [0, 1, 2, 3]

/-- `PHQ9_SEVERITY` band table from `main.py`: inclusive (lo, hi, label). -/
def PHQ9_SEVERITY : List (Int × Int × String) :=
  [(0, 4, "Minimal"), (5, 9, "Mild"), (10, 14, "Moderate"),
   (15, 19, "Moderately Severe"), (20, 27, "Severe")]

/-- `GAD7_SEVERITY` band table from `main.py`. -/
def GAD7_SEVERITY : List (Int × Int × String) :=
  [(0, 4, "Minimal"), (5, 9, "Mild"), (10, 14, "Moderate"), (15, 21, "Severe")]

/-- `severity_from_score(score, bands)` from `main.py`: first band with
`lo <= score <= hi` wins, otherwise the fallback label `"Unknown"`. -/
def severity_from_score (score : Int) : List (Int × Int × String) → String
  | [] => "Unknown"
  | (lo, hi, label) :: rest =>
      if lo ≤ score ∧ score ≤ hi then label
      else severity_from_score score rest

/-- `AssessmentResponse` pydantic model from `schemas.py`.  The
`assessment_key` field is a `Literal["phq9","gad7"]`; here it is a raw
string and the literal check is performed by `validateSubmission`, which
models pydantic request validation. -/
structure AssessmentResponse where
  assessment_key : String
  answers : List Int
  score : Option Int := none
  severity : Option String := none
  student_email : Option String := none
deriving Repr, DecidableEq

/-- Ways a request can fail: pydantic schema validation (HTTP 422),
an explicit `HTTPException(status, detail)`, or an uncaught Python
`IndexError` escaping the handler. -/
inductive ReqErr where
  | validation (detail : String)
  | http (status : Nat) (detail : String)
  | indexError
deriving Repr, DecidableEq

/-- A client error: pydantic validation failure or an HTTP 4xx. -/
def ReqErr.isClientError : ReqErr → Bool
  | .validation _ => true
  | .http status _ => 400 ≤ status ∧ status < 500
  | .indexError => false

deriving instance DecidableEq for Except

/-- Result of the submit endpoint: the HTTP response together with the
list of `create_document(collection, record)` calls attempted (the call
is attempted even when the store then throws, since `submit_assessment`
swallows the exception). -/
structure SubmitOutcome where
  response : Except ReqErr AssessmentResponse
  createdDocs : List (String × AssessmentResponse)
deriving Repr, DecidableEq

/-- Keys of the static `ASSESSMENTS` dict in `main.py`. -/
def ASSESSMENT_KEYS : List String := ["phq9", "gad7"]

/-- `sum(WEIGHTS[a] for a in answers)` from `main.py`: each answer is used
as a Python index into the weight table; the first out-of-range index
raises `IndexError` (`none`). -/
def computeScore (weights : List Int) : List Int → Option Int
  | [] => some 0
  | a :: rest => do
      let w ← pyIndex weights a
      let s ← computeScore weights rest
      pure (w + s)

/-- `submit_assessment` handler body from `main.py` (after pydantic
validation): key check, answer-count check, score and severity
computation, best-effort persistence, echo of the enriched payload. -/
def submit_assessment (payload : AssessmentResponse) : SubmitOutcome :=
  let key := payload.assessment_key
  if key ∉ ASSESSMENT_KEYS then
    ⟨.error (.http 400 "Unknown assessment key"), []⟩
  else
    let required_len : Nat := if key = "phq9" then 9 else 7
    if payload.answers.length ≠ required_len then
      ⟨.error (.http 400 ("Expected " ++ toString required_len ++ " answers")), []⟩
    else
      let weights := if key = "phq9" then PHQ9_WEIGHTS else GAD7_WEIGHTS
      let band := if key = "phq9" then PHQ9_SEVERITY else GAD7_SEVERITY
      match computeScore weights payload.answers with
      | none => ⟨.error .indexError, []⟩
      | some score =>
          let result := { payload with
            score := some score
            severity := some (severity_from_score score band) }
          ⟨.ok result, [("assessmentresponse", result)]⟩

/-- Pydantic validation of the request body against `AssessmentResponse`:
`assessment_key` must satisfy `Literal["phq9","gad7"]`. -/
def validateSubmission (raw : AssessmentResponse) : Except ReqErr AssessmentResponse :=
  if raw.assessment_key ∈ ASSESSMENT_KEYS then .ok raw
  else .error (.validation "assessment_key must be phq9 or gad7")

/-- `POST /api/assessments/submit`: pydantic validation, then the
`submit_assessment` handler.  A validation failure reaches no handler
code and attempts no persistence. -/
def post_assessments_submit (raw : AssessmentResponse) : SubmitOutcome :=
  match validateSubmission raw with
  | .error e => ⟨.error e, []⟩
  | .ok payload => submit_assessment payload

/-- `Resource` pydantic model from `schemas.py`.  `category` is the
`Literal["article","video","guide","helpline","tool"]`, kept as a string;
construction goes through `Resource.make`, which enforces the literal. -/
structure Resource where
  title : String
  description : String
  url : String
  category : String
deriving Repr, DecidableEq

/-- The five values allowed by the `category` literal of `Resource`. -/
def validCategory (c : String) : Bool :=
  c ∈ ["article", "video", "guide", "helpline", "tool"]

/-- Constructing a `Resource` in pydantic: raises a `ValidationError`
(`none`) when `category` is outside the literal. -/
def Resource.make (title description url category : String) : Option Resource :=
  if validCategory category then some ⟨title, description, url, category⟩
  else none

/-- A raw resource record read from the store: a schema-less document
whose fields may each be absent (`d.get(field, default)` in `main.py`). -/
structure ResourceDoc where
  title : Option String := none
  description : Option String := none
  url : Option String := none
  category : Option String := none
deriving Repr, DecidableEq

/-- The loop body of `get_resources`: `Resource(title=d.get("title",""),
..., category=d.get("category","article"))`. -/
def mapResourceDoc (d : ResourceDoc) : Option Resource :=
  Resource.make (d.title.getD "") (d.description.getD "") (d.url.getD "")
    (d.category.getD "article")

/-- The hardcoded default resource list returned by `get_resources` when
the store is empty, absent or throws. -/
def DEFAULT_RESOURCES : List Resource :=
  [⟨"Coping with Exam Stress (IT)", "Practical steps for managing deadlines and exams.",
    "https://www.mind.org.uk/", "guide"⟩,
   ⟨"Understanding Burnout", "Signs and strategies for students in tech.",
    "https://www.helpguide.org/", "article"⟩,
   ⟨"Breathing Exercise", "4-7-8 guided breathing timer.",
    "https://www.boxbreathingapp.com/", "tool"⟩,
   ⟨"24/7 Helpline", "Immediate assistance if you’re in crisis.",
    "https://988lifeline.org/", "helpline"⟩]

/-- The mapping loop of `get_resources`: builds the `mapped` list, or
`none` as soon as any record raises a `ValidationError`. -/
def mapResources : List ResourceDoc → Option (List Resource)
  | [] => some []
  | d :: rest => do
      let r ← mapResourceDoc d
      let rs ← mapResources rest
      pure (r :: rs)

/-- `GET /api/resources` from `main.py`.  The store read is an `Except`:
`.error` models `get_documents` throwing (or the store handle being
absent).  The `try` block covers the read, the whole mapping loop and the
non-empty check, so a `ValidationError` on any single record falls into
the same `except: pass` and yields the defaults. -/
def get_resources (store : Except Unit (List ResourceDoc)) : List Resource :=
  match store with
  | .error _ => DEFAULT_RESOURCES
  | .ok docs =>
      match mapResources docs with
      | none => DEFAULT_RESOURCES
      | some mapped => if mapped.isEmpty then DEFAULT_RESOURCES else mapped

/-- `TeamMember` pydantic model from `schemas.py`: no literal fields, so
construction never fails. -/
structure TeamMember where
  name : String
  role : String
  bio : Option String := none
  avatar : Option String := none
deriving Repr, DecidableEq

/-- A raw team record read from the store (`d.get(...)` in `main.py`;
`bio` and `avatar` use `d.get(key)`, defaulting to `None`). -/
structure TeamDoc where
  name : Option String := none
  role : Option String := none
  bio : Option String := none
  avatar : Option String := none
deriving Repr, DecidableEq

/-- The hardcoded default team list in `get_team`. -/
def DEFAULT_TEAM : List TeamMember :=
  [⟨"Ava Patel", "Clinical Advisor", some "Guides assessment criteria", none⟩,
   ⟨"Liam Chen", "Data Analyst", some "Turns mood logs into insight", none⟩,
   ⟨"Sara Gomez", "Frontend", some "Designs interactive tools", none⟩,
   ⟨"Noah Singh", "Backend", some "APIs and data layer", none⟩]

/-- `GET /api/team` from `main.py`: same read-with-fallback shape as
`get_resources`, but mapping cannot fail. -/
def get_team (store : Except Unit (List TeamDoc)) : List TeamMember :=
  match store with
  | .error _ => DEFAULT_TEAM
  | .ok docs =>
      let out := docs.map fun d =>
        TeamMember.mk (d.name.getD "") (d.role.getD "") d.bio d.avatar
      if out.isEmpty then DEFAULT_TEAM else out

/-- A raw mood record read from the store; the `mood` field may be absent
(`d.get("mood", "unknown")` in `main.py`). -/
structure MoodDoc where
  mood : Option String := none
deriving Repr, DecidableEq

/-- Result shape of `GET /api/mood/stats`; `counts` is the Python dict as
an insertion-ordered association list. -/
structure MoodStats where
  total : Nat
  counts : List (String × Nat)
deriving Repr, DecidableEq

/-- One iteration of the tally loop:
`counts[m] = counts.get(m, 0) + 1` on a Python dict. -/
def bumpCount : List (String × Nat) → String → List (String × Nat)
  | [], k => [(k, 1)]
  | (k₀, v) :: rest, k =>
      if k₀ = k then (k₀, v + 1) :: rest else (k₀, v) :: bumpCount rest k

/-- `GET /api/mood/stats` from `main.py`: on a successful read, `total`
is the number of documents and `counts` tallies
`d.get("mood", "unknown")`; any exception yields `{total: 0, counts: {}}`. -/
def mood_stats (store : Except Unit (List MoodDoc)) : MoodStats :=
  match store with
  | .error _ => ⟨0, []⟩
  | .ok docs =>
      ⟨docs.length, (docs.map fun d => d.mood.getD "unknown").foldl bumpCount []⟩

/-- The five values allowed by the `mood` literal of `MoodEntry`. -/
inductive Mood where
  | great | good | okay | low | down
deriving Repr, DecidableEq

/-- `MoodEntry` pydantic model from `schemas.py`; a value of this type is
a schema-valid request body. -/
structure MoodEntry where
  mood : Mood
  note : Option String := none
  student_email : Option String := none
  timestamp : Option Nat := none
deriving Repr, DecidableEq

/-- `POST /api/mood` from `main.py`: best-effort `create_document`, any
exception swallowed, the entry echoed unchanged.  `createResult` is the
outcome of the store write. -/
def add_mood (createResult : Except Unit Unit) (entry : MoodEntry) : MoodEntry :=
  match createResult with
  | .ok _ => entry
  | .error _ => entry

/-- `ContactMessage` pydantic model from `schemas.py`; a value of this
type is a schema-valid request body. -/
structure ContactMessage where
  name : String
  email : String
  subject : String
  message : String
deriving Repr, DecidableEq

/-- Response body of `POST /api/contact`. -/
structure ContactAck where
  ok : Bool
deriving Repr, DecidableEq

/-- `POST /api/contact` from `main.py`: best-effort `create_document`,
any exception swallowed, fixed `{ok: True}` response. -/
def send_contact (createResult : Except Unit Unit) (_msg : ContactMessage) : ContactAck :=
  match createResult with
  | .ok _ => ⟨true⟩
  | .error _ => ⟨true⟩

/-- Spec-side band table, written out as the claim states it (PHQ-9:
0-4 Minimal, 5-9 Mild, 10-14 Moderate, 15-19 Moderately Severe, 20-27
Severe; GAD-7: 0-4 Minimal, 5-9 Mild, 10-14 Moderate, 15-21 Severe);
`none` when the score lies in no band.  Used only to compare against the
code's `severity_from_score`. -/
def specSeverityLabel (key : String) (s : Int) : Option String :=
  if key = "phq9" then
    if 0 ≤ s ∧ s ≤ 4 then some "Minimal"
    else if 5 ≤ s ∧ s ≤ 9 then some "Mild"
    else if 10 ≤ s ∧ s ≤ 14 then some "Moderate"
    else if 15 ≤ s ∧ s ≤ 19 then some "Moderately Severe"
    else if 20 ≤ s ∧ s ≤ 27 then some "Severe"
    else none
  else
    if 0 ≤ s ∧ s ≤ 4 then some "Minimal"
    else if 5 ≤ s ∧ s ≤ 9 then some "Mild"
    else if 10 ≤ s ∧ s ≤ 14 then some "Moderate"
    else if 15 ≤ s ∧ s ≤ 21 then some "Severe"
    else none

/-- The score and severity visible to the client: `none` when the request
errored, otherwise the returned record's score and severity fields. -/
def outcomeScoreSeverity (o : SubmitOutcome) : Option (Option Int × Option String) :=
  match o.response with
  | .ok r => some (r.score, r.severity)
  | .error _ => none

/-- `counts.get(m, 0)` on the Python dict modelled as an association
list: the stored count of `k`, or 0 when absent. -/
def dictGet (counts : List (String × Nat)) (k : String) : Nat :=
  match counts with
  | [] => 0
  | (k₀, v) :: rest => if k₀ = k then v else dictGet rest k

/-! ## Helper lemmas -/

lemma pyIndex_id (a : Int) (h0 : 0 ≤ a) (h3 : a ≤ 3) :
    pyIndex [0, 1, 2, 3] a = some a := by
  interval_cases a <;> rfl

lemma computeScore_id (l : List Int) (h : ∀ a ∈ l, 0 ≤ a ∧ a ≤ 3) :
    computeScore [0, 1, 2, 3] l = some l.sum := by
  induction l with
  | nil => rfl
  | cons a rest ih =>
      have ha := h a (List.mem_cons_self a rest)
      have hrest : ∀ b ∈ rest, 0 ≤ b ∧ b ≤ 3 := fun b hb => h b (List.mem_cons_of_mem a hb)
      simp [computeScore, pyIndex_id a ha.1 ha.2, ih hrest]

lemma sumNonneg (l : List Int) (h : ∀ a ∈ l, 0 ≤ a) : 0 ≤ l.sum := by
  induction l with
  | nil => simp
  | cons a rest ih =>
      have := h a (List.mem_cons_self a rest)
      have := ih fun b hb => h b (List.mem_cons_of_mem a hb)
      simp only [List.sum_cons]
      omega

lemma sumLeThreeMul (l : List Int) (h : ∀ a ∈ l, a ≤ 3) : l.sum ≤ 3 * l.length := by
  induction l with
  | nil => simp
  | cons a rest ih =>
      have := h a (List.mem_cons_self a rest)
      have := ih fun b hb => h b (List.mem_cons_of_mem a hb)
      simp only [List.sum_cons, List.length_cons]
      push_cast
      omega

/-- Reduction of the submit endpoint on a valid submission: the request
succeeds, the score is the sum of the answers, the severity is the band
lookup, and one persistence attempt is recorded. -/
lemma submit_valid_ok (p : AssessmentResponse)
    (hkey : p.assessment_key = "phq9" ∧ p.answers.length = 9 ∨
            p.assessment_key = "gad7" ∧ p.answers.length = 7)
    (hans : ∀ a ∈ p.answers, 0 ≤ a ∧ a ≤ 3) :
    post_assessments_submit p =
      ⟨.ok { p with
          score := some p.answers.sum
          severity := some (severity_from_score p.answers.sum
            (if p.assessment_key = "phq9" then PHQ9_SEVERITY else GAD7_SEVERITY)) },
        [("assessmentresponse", { p with
          score := some p.answers.sum
          severity := some (severity_from_score p.answers.sum
            (if p.assessment_key = "phq9" then PHQ9_SEVERITY else GAD7_SEVERITY)) })]⟩ := by
  have hscorePhq : computeScore PHQ9_WEIGHTS p.answers = some p.answers.sum :=
    computeScore_id p.answers hans
  have hscoreGad : computeScore GAD7_WEIGHTS p.answers = some p.answers.sum :=
    computeScore_id p.answers hans
  rcases hkey with ⟨hk, hlen⟩ | ⟨hk, hlen⟩ <;>
    simp [post_assessments_submit, validateSubmission, submit_assessment,
      ASSESSMENT_KEYS, hk, hlen, hscorePhq, hscoreGad]

/-! ## Claim theorems -/

/-- C1: for every valid submission (phq9 with 9 answers in 0..3, or gad7
with 7 answers in 0..3), the returned record's score equals the sum of
the raw answers (the weight table is the identity on 0..3). -/
theorem submit_score_eq_sum (p : AssessmentResponse)
    (hkey : p.assessment_key = "phq9" ∧ p.answers.length = 9 ∨
            p.assessment_key = "gad7" ∧ p.answers.length = 7)
    (hans : ∀ a ∈ p.answers, 0 ≤ a ∧ a ≤ 3) :
    ∃ r, (post_assessments_submit p).response = .ok r ∧ r.score = some p.answers.sum := by
  refine ⟨{ p with
      score := some p.answers.sum
      severity := some (severity_from_score p.answers.sum
        (if p.assessment_key = "phq9" then PHQ9_SEVERITY else GAD7_SEVERITY)) }, ?_, rfl⟩
  rw [submit_valid_ok p hkey hans]

/-- C1 witness: a concrete phq9 submission with answers summing to 13. -/
theorem submit_score_eq_sum_witness :
    ∃ r, (post_assessments_submit
        { assessment_key := "phq9", answers := [1, 2, 3, 0, 1, 2, 3, 0, 1] }).response = .ok r ∧
      r.score = some 13 := by
  have h := submit_score_eq_sum
    { assessment_key := "phq9", answers := [1, 2, 3, 0, 1, 2, 3, 0, 1] }
    (Or.inl ⟨rfl, rfl⟩) (by decide)
  simpa using h

lemma severity_phq9_spec (s : Int) (h0 : 0 ≤ s) (h27 : s ≤ 27) :
    some (severity_from_score s PHQ9_SEVERITY) = specSeverityLabel "phq9" s ∧
      severity_from_score s PHQ9_SEVERITY ≠ "Unknown" := by
  interval_cases s <;> exact ⟨rfl, by decide⟩

lemma severity_gad7_spec (s : Int) (h0 : 0 ≤ s) (h21 : s ≤ 21) :
    some (severity_from_score s GAD7_SEVERITY) = specSeverityLabel "gad7" s ∧
      severity_from_score s GAD7_SEVERITY ≠ "Unknown" := by
  interval_cases s <;> exact ⟨rfl, by decide⟩

/-- C2: for every valid submission the returned severity is exactly the
label of the band containing the computed score, per the PHQ-9/GAD-7
tables, and the `"Unknown"` fallback is never returned. -/
theorem submit_severity_banded (p : AssessmentResponse)
    (hkey : p.assessment_key = "phq9" ∧ p.answers.length = 9 ∨
            p.assessment_key = "gad7" ∧ p.answers.length = 7)
    (hans : ∀ a ∈ p.answers, 0 ≤ a ∧ a ≤ 3) :
    ∃ r, (post_assessments_submit p).response = .ok r ∧
      r.severity = specSeverityLabel p.assessment_key p.answers.sum ∧
      r.severity ≠ some "Unknown" ∧ r.severity ≠ none := by
  have h0 : 0 ≤ p.answers.sum := sumNonneg p.answers fun a ha => (hans a ha).1
  have hle : p.answers.sum ≤ 3 * p.answers.length :=
    sumLeThreeMul p.answers fun a ha => (hans a ha).2
  refine ⟨{ p with
      score := some p.answers.sum
      severity := some (severity_from_score p.answers.sum
        (if p.assessment_key = "phq9" then PHQ9_SEVERITY else GAD7_SEVERITY)) }, ?_, ?_, ?_, ?_⟩
  · rw [submit_valid_ok p hkey hans]
  · rcases hkey with ⟨hk, hlen⟩ | ⟨hk, hlen⟩ <;> rw [hlen] at hle <;> simp only [hk]
    · simpa [hk] using (severity_phq9_spec p.answers.sum h0 (by omega)).1
    · simpa [hk] using (severity_gad7_spec p.answers.sum h0 (by omega)).1
  · rcases hkey with ⟨hk, hlen⟩ | ⟨hk, hlen⟩ <;> rw [hlen] at hle <;> simp only [hk]
    · have := (severity_phq9_spec p.answers.sum h0 (by omega)).2
      simp [this]
    · have := (severity_gad7_spec p.answers.sum h0 (by omega)).2
      simp [this]
  · simp

/-- C2 witness: a concrete gad7 submission scoring 15, severity
`"Severe"` per the GAD-7 band table. -/
theorem submit_severity_banded_witness :
    ∃ r, (post_assessments_submit
        { assessment_key := "gad7", answers := [3, 3, 3, 2, 2, 1, 1] }).response = .ok r ∧
      r.severity = specSeverityLabel "gad7" 15 ∧
      r.severity ≠ some "Unknown" ∧ r.severity ≠ none := by
  have h := submit_severity_banded
    { assessment_key := "gad7", answers := [3, 3, 3, 2, 2, 1, 1] }
    (Or.inr ⟨rfl, rfl⟩) (by decide)
  simpa using h

lemma pyIndex_weights_none (a : Int) (h : 3 < a ∨ a < -4) :
    pyIndex [0, 1, 2, 3] a = none := by
  rcases h with h | h
  · have h0 : 0 ≤ a := by omega
    simp only [pyIndex, if_pos h0]
    exact List.get?_eq_none.mpr (by simp; omega)
  · have h0 : ¬ 0 ≤ a := by omega
    have h1 : ¬ 0 ≤ (([0, 1, 2, 3] : List Int).length : Int) + a := by simp; omega
    simp only [pyIndex, if_neg h0, if_neg h1]

lemma computeScore_eq_none (w : List Int) (l : List Int)
    (h : ∃ a ∈ l, pyIndex w a = none) : computeScore w l = none := by
  induction l with
  | nil => simp at h
  | cons a rest ih =>
      rcases h with ⟨b, hb, hnone⟩
      rcases List.mem_cons.mp hb with rfl | hbrest
      · simp [computeScore, hnone]
      · cases hpa : pyIndex w a <;> simp [computeScore, hpa, ih ⟨b, hbrest, hnone⟩]

/-- C3 counterexample: the submission `phq9` with answers
`[-1,0,0,0,0,0,0,0,0]` passes the key and count checks and contains an
answer outside 0..3, yet the score computation does not fail: Python
negative indexing accepts `-1` as an index into the weight table (weight
3), and the request succeeds with score 3. -/
theorem submit_out_of_range_counterexample :
    ¬ (0 ≤ (-1 : Int) ∧ (-1 : Int) ≤ 3) ∧
    (post_assessments_submit
        { assessment_key := "phq9", answers := [-1, 0, 0, 0, 0, 0, 0, 0, 0] }).response =
      .ok { assessment_key := "phq9", answers := [-1, 0, 0, 0, 0, 0, 0, 0, 0],
            score := some 3, severity := some "Minimal" } := by
  constructor
  · decide
  · rfl

/-- C3 amended: for every submission passing the key and answer-count
checks, the score computation fails at the weight-table indexing step
(an uncaught IndexError, not a clean validation error) when some answer
is greater than 3 or less than -4; answers in -4..-1 do not fail, because
Python negative indexing maps them to weights from the end of the table. -/
theorem submit_out_of_range_index_error (p : AssessmentResponse)
    (hkey : p.assessment_key = "phq9" ∧ p.answers.length = 9 ∨
            p.assessment_key = "gad7" ∧ p.answers.length = 7)
    (hbad : ∃ a ∈ p.answers, 3 < a ∨ a < -4) :
    (post_assessments_submit p).response = .error .indexError := by
  rcases hbad with ⟨b, hb, hout⟩
  have hnone : ∀ w, w = ([0, 1, 2, 3] : List Int) → computeScore w p.answers = none :=
    fun w hw => hw ▸ computeScore_eq_none _ _ ⟨b, hb, pyIndex_weights_none b hout⟩
  rcases hkey with ⟨hk, hlen⟩ | ⟨hk, hlen⟩ <;>
    simp [post_assessments_submit, validateSubmission, submit_assessment,
      ASSESSMENT_KEYS, hk, hlen, hnone PHQ9_WEIGHTS rfl, hnone GAD7_WEIGHTS rfl]

/-- C3 amended witness: answer 4 in a phq9 submission raises IndexError. -/
theorem submit_out_of_range_index_error_witness :
    (post_assessments_submit
        { assessment_key := "phq9", answers := [4, 0, 0, 0, 0, 0, 0, 0, 0] }).response =
      .error .indexError :=
  submit_out_of_range_index_error
    { assessment_key := "phq9", answers := [4, 0, 0, 0, 0, 0, 0, 0, 0] }
    (Or.inl ⟨rfl, rfl⟩) ⟨4, by decide, by decide⟩

/-- C4: a submission whose assessment_key is neither phq9 nor gad7 fails
with a client error (pydantic rejects the `Literal` before the handler
runs) and no `create_document` call is attempted. -/
theorem submit_unknown_key_rejected (raw : AssessmentResponse)
    (h1 : raw.assessment_key ≠ "phq9") (h2 : raw.assessment_key ≠ "gad7") :
    ∃ e, (post_assessments_submit raw).response = .error e ∧
      e.isClientError = true ∧ (post_assessments_submit raw).createdDocs = [] := by
  have hmem : raw.assessment_key ∉ ASSESSMENT_KEYS := by
    simp [ASSESSMENT_KEYS, h1, h2]
  refine ⟨.validation "assessment_key must be phq9 or gad7", ?_, rfl, ?_⟩ <;>
    simp [post_assessments_submit, validateSubmission, hmem]

/-- C4 witness: the key "bogus" is rejected without persistence. -/
theorem submit_unknown_key_rejected_witness :
    ∃ e, (post_assessments_submit
        { assessment_key := "bogus", answers := [0] }).response = .error e ∧
      e.isClientError = true ∧
      (post_assessments_submit { assessment_key := "bogus", answers := [0] }).createdDocs = [] :=
  submit_unknown_key_rejected { assessment_key := "bogus", answers := [0] }
    (by decide) (by decide)

/-- C5: a known key with the wrong number of answers fails with a 400
whose detail names the expected count, and no persistence is attempted. -/
theorem submit_wrong_count_rejected (raw : AssessmentResponse)
    (hk : raw.assessment_key = "phq9" ∨ raw.assessment_key = "gad7")
    (hlen : raw.answers.length ≠ if raw.assessment_key = "phq9" then 9 else 7) :
    (post_assessments_submit raw).response =
      .error (.http 400 (if raw.assessment_key = "phq9"
        then "Expected 9 answers" else "Expected 7 answers")) ∧
      (post_assessments_submit raw).createdDocs = [] := by
  rcases hk with hk | hk <;> rw [hk] at hlen <;> simp at hlen <;>
    simp [post_assessments_submit, validateSubmission, submit_assessment,
      ASSESSMENT_KEYS, hk, hlen] <;> rfl

/-- C5 witness: phq9 with 8 answers yields "Expected 9 answers" and no
persistence. -/
theorem submit_wrong_count_rejected_witness :
    (post_assessments_submit
        { assessment_key := "phq9", answers := [0, 0, 0, 0, 0, 0, 0, 0] }).response =
      .error (.http 400 "Expected 9 answers") ∧
    (post_assessments_submit
        { assessment_key := "phq9", answers := [0, 0, 0, 0, 0, 0, 0, 0] }).createdDocs = [] := by
  have h := submit_wrong_count_rejected
    { assessment_key := "phq9", answers := [0, 0, 0, 0, 0, 0, 0, 0] }
    (Or.inl rfl) (by decide)
  simpa using h

/-- C6: the returned score and severity are computed on the server from
assessment_key and answers alone; two submissions differing only in the
client-supplied score and severity fields produce identical returned
score and severity (and identical error outcomes). -/
theorem submit_score_severity_server_computed (p q : AssessmentResponse)
    (hkey : p.assessment_key = q.assessment_key)
    (hans : p.answers = q.answers)
    (hmail : p.student_email = q.student_email) :
    outcomeScoreSeverity (post_assessments_submit p) =
      outcomeScoreSeverity (post_assessments_submit q) := by
  obtain ⟨pk, pa, ps, pv, pe⟩ := p
  obtain ⟨qk, qa, qs, qv, qe⟩ := q
  simp only at hkey hans hmail
  subst hkey hans hmail
  by_cases hmem : pk ∈ ASSESSMENT_KEYS
  · by_cases hlen : pa.length = if pk = "phq9" then 9 else 7
    · cases hcs : computeScore (if pk = "phq9" then PHQ9_WEIGHTS else GAD7_WEIGHTS) pa <;>
        by_cases hp : pk = "phq9" <;>
        simp_all [post_assessments_submit, validateSubmission, submit_assessment,
          outcomeScoreSeverity]
    · simp [post_assessments_submit, validateSubmission, submit_assessment,
        outcomeScoreSeverity, hmem, hlen]
  · simp [post_assessments_submit, validateSubmission, outcomeScoreSeverity, hmem]

/-- C6 witness: two phq9 submissions differing only in client-supplied
score and severity yield the same returned score and severity. -/
theorem submit_score_severity_server_computed_witness :
    outcomeScoreSeverity (post_assessments_submit
      { assessment_key := "phq9", answers := [1, 1, 1, 1, 1, 1, 1, 1, 1],
        score := some 99, severity := some "Severe" }) =
    outcomeScoreSeverity (post_assessments_submit
      { assessment_key := "phq9", answers := [1, 1, 1, 1, 1, 1, 1, 1, 1],
        score := none, severity := none }) :=
  submit_score_severity_server_computed
    { assessment_key := "phq9", answers := [1, 1, 1, 1, 1, 1, 1, 1, 1],
      score := some 99, severity := some "Severe" }
    { assessment_key := "phq9", answers := [1, 1, 1, 1, 1, 1, 1, 1, 1],
      score := none, severity := none }
    rfl rfl rfl

lemma dictGet_bumpCount (counts : List (String × Nat)) (m k : String) :
    dictGet (bumpCount counts m) k = dictGet counts k + if m = k then 1 else 0 := by
  induction counts with
  | nil => by_cases h : m = k <;> simp [bumpCount, dictGet, h]
  | cons p rest ih =>
      obtain ⟨k₀, v⟩ := p
      by_cases h : k₀ = m
      · subst h
        by_cases h2 : k₀ = k <;> simp [bumpCount, dictGet, h2]
      · by_cases h2 : k₀ = k
        · subst h2
          have : ¬ m = k₀ := fun hmk => h hmk.symm
          simp [bumpCount, dictGet, h, this]
        · simp [bumpCount, dictGet, h, h2, ih]

lemma dictGet_foldl_bumpCount (ms : List String) (counts : List (String × Nat)) (k : String) :
    dictGet (ms.foldl bumpCount counts) k = dictGet counts k + ms.count k := by
  induction ms generalizing counts with
  | nil => simp
  | cons m rest ih =>
      rw [List.foldl_cons, ih, dictGet_bumpCount, List.count_cons]
      by_cases h : m = k
      · simp [h]
        omega
      · have : ¬ k = m := fun hk => h hk.symm
        simp [h, this]

/-- C8: `GET /api/mood/stats` returns `{total: 0, counts: {}}` whenever
the store read throws; on a successful read, total is the number of
records and the count stored for each key equals the number of records
whose mood is that key, records lacking a mood field counting under
`"unknown"`. -/
theorem mood_stats_spec :
    (∀ u : Unit, mood_stats (.error u) = ⟨0, []⟩) ∧
    ∀ docs : List MoodDoc,
      (mood_stats (.ok docs)).total = docs.length ∧
      ∀ k, dictGet (mood_stats (.ok docs)).counts k =
        (docs.map fun d => d.mood.getD "unknown").count k := by
  refine ⟨fun u => rfl, fun docs => ⟨rfl, fun k => ?_⟩⟩
  simp [mood_stats, dictGet_foldl_bumpCount, dictGet]

/-- C9: `POST /api/contact` always answers `{ok: true}` and `POST
/api/mood` always echoes the submitted entry unchanged, whether the
`create_document` call succeeds or throws. -/
theorem contact_and_mood_ack_unconditional :
    (∀ r : Except Unit Unit, ∀ m : ContactMessage, send_contact r m = ⟨true⟩) ∧
    (∀ r : Except Unit Unit, ∀ e : MoodEntry, add_mood r e = e) :=
  ⟨fun r _ => by cases r <;> rfl, fun r _ => by cases r <;> rfl⟩

/-- C7: `GET /api/resources` and `GET /api/team` return exactly the four
hardcoded default records (with these exact field values) when the store
read throws or yields no records, and return the mapped stored set
whenever it is non-empty. -/
theorem resources_and_team_fallback :
    get_resources (.error ()) =
      [⟨"Coping with Exam Stress (IT)", "Practical steps for managing deadlines and exams.",
        "https://www.mind.org.uk/", "guide"⟩,
       ⟨"Understanding Burnout", "Signs and strategies for students in tech.",
        "https://www.helpguide.org/", "article"⟩,
       ⟨"Breathing Exercise", "4-7-8 guided breathing timer.",
        "https://www.boxbreathingapp.com/", "tool"⟩,
       ⟨"24/7 Helpline", "Immediate assistance if you’re in crisis.",
        "https://988lifeline.org/", "helpline"⟩] ∧
    get_resources (.ok []) = DEFAULT_RESOURCES ∧
    get_team (.error ()) =
      [⟨"Ava Patel", "Clinical Advisor", some "Guides assessment criteria", none⟩,
       ⟨"Liam Chen", "Data Analyst", some "Turns mood logs into insight", none⟩,
       ⟨"Sara Gomez", "Frontend", some "Designs interactive tools", none⟩,
       ⟨"Noah Singh", "Backend", some "APIs and data layer", none⟩] ∧
    get_team (.ok []) = DEFAULT_TEAM ∧
    (∀ docs mapped, mapResources docs = some mapped → mapped ≠ [] →
      get_resources (.ok docs) = mapped) ∧
    (∀ docs : List TeamDoc, docs ≠ [] →
      get_team (.ok docs) = docs.map fun d =>
        TeamMember.mk (d.name.getD "") (d.role.getD "") d.bio d.avatar) := by
  refine ⟨rfl, rfl, rfl, rfl, fun docs mapped hmap hne => ?_, fun docs hne => ?_⟩
  · simp [get_resources, hmap, hne]
  · simp [get_team, hne]

/-- C7 witness: a store with one mappable resource record yields that
mapped record, not the defaults. -/
theorem resources_and_team_fallback_witness :
    get_resources (.ok [{ title := some "T", description := some "D",
                          url := some "U", category := some "video" }]) =
      [⟨"T", "D", "U", "video"⟩] :=
  resources_and_team_fallback.2.2.2.2.1
    [{ title := some "T", description := some "D", url := some "U", category := some "video" }]
    [⟨"T", "D", "U", "video"⟩] rfl (by decide)

lemma mapResources_eq_none (docs : List ResourceDoc)
    (h : ∃ d ∈ docs, mapResourceDoc d = none) :
    mapResources docs = none := by
  induction docs with
  | nil => simp at h
  | cons d rest ih =>
      rcases h with ⟨b, hb, hnone⟩
      rcases List.mem_cons.mp hb with rfl | hbrest
      · simp [mapResources, hnone]
      · cases hd : mapResourceDoc d <;>
          simp [mapResources, hd, ih ⟨b, hbrest, hnone⟩]

/-- C10: if the store read succeeds but any single record has a category
outside the five allowed literals, the `ValidationError` aborts the whole
mapping inside the same catch-all, and `GET /api/resources` returns the
four hardcoded defaults — the valid records of the batch are discarded
too. -/
theorem resources_bad_category_discards_batch (docs : List ResourceDoc)
    (h : ∃ d ∈ docs, validCategory (d.category.getD "article") = false) :
    get_resources (.ok docs) = DEFAULT_RESOURCES := by
  have hnone : mapResources docs = none := by
    rcases h with ⟨d, hd, hbad⟩
    exact mapResources_eq_none docs
      ⟨d, hd, by simp [mapResourceDoc, Resource.make, hbad]⟩
  simp [get_resources, hnone]

/-- C10 witness: one fully valid record plus one record with category
"bogus" — the defaults are returned and the valid record is discarded. -/
theorem resources_bad_category_discards_batch_witness :
    get_resources (.ok
      [{ title := some "A", description := some "B", url := some "C", category := some "video" },
       { category := some "bogus" }]) = DEFAULT_RESOURCES :=
  resources_bad_category_discards_batch
    [{ title := some "A", description := some "B", url := some "C", category := some "video" },
     { category := some "bogus" }]
    ⟨{ category := some "bogus" }, by decide, by decide⟩

end MentalHealthApi
